import Mathlib

/-!
Shallow embedding of the MindBridge check-in / passive-data core
(`backend/core/passive_data_service.py`, `backend/core/checkin_service.py`,
`backend/api/routers/checkin.py`, `backend/models/passive_data.py`) and
verification of the specification claims about it.

Modelling conventions:
* Python floats are modelled as exact rationals (`ℚ`); float rounding is
  abstracted away, as all claim-relevant comparisons are on small exact values.
* Timestamps (`datetime`) are modelled as integer minutes on a linear time
  axis; `date()` truncation is integer floor-division by 1440 (minutes per
  day).  Day 0 of the axis is taken to be a Monday, so Python's
  `timestamp.weekday()` is `day % 7`.
* The database session is modelled as an explicit list of rows in insertion
  order; an un-ordered SQLAlchemy `.first()` is the first row of that list in
  insertion order (SQLite rowid order), and `order_by(...).all()` results are
  modelled by passing the fetched slice as an argument in the stated order.
* Enum-typed columns (`data_type`, `source`) are stored as strings, as in the
  database layer; the closed enums become the membership lists below.
-/

namespace MindBridge

/-- Minutes in a calendar day of the linear time model. -/
def minutesPerDay : Int := 1440

/-- Calendar date (day index) of a timestamp given in minutes; models
`timestamp.date()` / SQL `func.date`. -/
def dateOf (t : Int) : Int := t.fdiv minutesPerDay

/-- JSON value stored in the `value` column of `passive_data_points`:
a plain number, a dict carrying a `"value"` field, or anything else.
This mirrors exactly the three cases distinguished by
`PassiveDataPoint.get_numeric_value`. -/
inductive JsonValue where
  | num (q : ℚ)
  | obj (q : ℚ)
  | other
deriving DecidableEq

/-- Python truthiness-based `a or b` on an optional rational: `None` and
`0.0` are falsy, so both fall back to the default.  Used for
`data_point.quality_score or 1.0` and `checkin.energy_level or 5.0`. -/
def pyOrQ (a : Option ℚ) (b : ℚ) : ℚ :=
  match a with
  | none => b
  | some q => if q = 0 then b else q

/-- Supported data types: the string values of the `DataType` enum in
`backend/models/passive_data.py`. -/
def supportedDataTypes : List String :=
  ["sleep_duration", "sleep_quality", "sleep_efficiency",
   "step_count", "exercise_duration", "active_minutes", "calories_burned",
   "heart_rate", "heart_rate_variability", "blood_pressure", "weight",
   "screen_time", "app_usage", "notification_count",
   "location_summary", "weather_exposure", "ambient_light", "noise_level",
   "social_interaction", "call_duration", "message_count"]

/-- Supported sources: the string values of the `DataSource` enum in
`backend/models/passive_data.py`. -/
def supportedSources : List String :=
  ["HealthKit", "GoogleFit", "Fitbit", "Samsung Health",
   "device_sensors", "smartphone", "wearable",
   "screen_time_api", "location_services", "weather_api", "calendar",
   "internal_tracking", "user_behavior"]

/-- Incoming passive data point (`PassiveDataCreate` schema).  The `metadata`
field is omitted: it is persisted verbatim and read by no claim-relevant
code. -/
structure PassiveDataCreate where
  data_type : String
  value : JsonValue
  source : String
  timestamp : Option Int
  quality_score : Option ℚ
deriving DecidableEq

/-- Persisted row of the `passive_data_points` table.  The `metadata` column
and the autoincrement primary key are omitted (read by no claim-relevant
code). -/
structure PassiveDataPoint where
  user_id : Nat
  data_type : String
  value : JsonValue
  source : String
  timestamp : Int
  quality_score : ℚ
  processed : Bool
deriving DecidableEq

/-- Numeric extraction `PassiveDataPoint.get_numeric_value`: a number is
taken as-is, a dict's `"value"` field is taken, anything else is 0.0. -/
def PassiveDataPoint.get_numeric_value (p : PassiveDataPoint) : ℚ :=
  match p.value with
  | .num q => q
  | .obj q => q
  | .other => 0

/-- Validation of a data point, `PassiveDataService.validate_data_point`:
data type and source must be members of the closed enums, a supplied quality
score must lie in [0, 1], and a supplied timestamp must not be in the future
nor more than 365 days in the past.  `now` is the current clock reading in
minutes.  Error messages are accumulated in source order. -/
def validate_data_point (now : Int) (dp : PassiveDataCreate) : List String :=
  (if dp.data_type ∈ supportedDataTypes then []
   else ["Invalid data type: " ++ dp.data_type]) ++
  (if dp.source ∈ supportedSources then []
   else ["Invalid source: " ++ dp.source]) ++
  (match dp.quality_score with
   | none => []
   | some q =>
     if 0 ≤ q ∧ q ≤ 1 then [] else ["Quality score must be between 0.0 and 1.0"]) ++
  (match dp.timestamp with
   | none => []
   | some t =>
     (if now < t then ["Timestamp cannot be in the future"] else []) ++
     (if t < now - 365 * minutesPerDay then
        ["Timestamp cannot be more than 1 year in the past"] else []))

/-- Content hash for duplicate detection, `_create_data_hash`: the source
takes the MD5 of the canonical (sorted-keys) JSON serialization of
`{data_type, value, source}`.  Hash equality is used only as equality of
those three fields, so the hash is modelled as the triple itself (canonical
JSON serialization is injective on these fields; MD5 collisions are
abstracted away). -/
def _create_data_hash (dp : PassiveDataCreate) : String × JsonValue × String :=
  (dp.data_type, dp.value, dp.source)

/-- Content hash of a persisted row, `_create_data_hash_from_db`: same triple
as `_create_data_hash`, read from the database row. -/
def _create_data_hash_from_db (p : PassiveDataPoint) : String × JsonValue × String :=
  (p.data_type, p.value, p.source)

/-- Row filter of the duplicate-window query inside `_is_duplicate`: same
user, same data type, same source, timestamp within the symmetric ±5-minute
window around `ts`. -/
def windowMatch (uid : Nat) (dp : PassiveDataCreate) (ts : Int) (e : PassiveDataPoint) : Bool :=
  decide (e.user_id = uid ∧ e.data_type = dp.data_type ∧ e.source = dp.source ∧
          ts - 5 ≤ e.timestamp ∧ e.timestamp ≤ ts + 5)

/-- Duplicate check `_is_duplicate`: query the store for the first point of
the same (user, data_type, source) within ±5 minutes of the candidate's
timestamp (defaulting to `now` when unset); if one exists, the candidate is a
duplicate exactly when that first match has an equal content hash.  Note that
only the first window match is hash-compared. -/
def _is_duplicate (now : Int) (uid : Nat) (store : List PassiveDataPoint)
    (dp : PassiveDataCreate) : Bool :=
  let ts := dp.timestamp.getD now
  match store.find? (windowMatch uid dp ts) with
  | some existing => decide (_create_data_hash dp = _create_data_hash_from_db existing)
  | none => false

/-- Row constructed by ingestion (the `PassiveDataPoint(...)` constructor
call in `ingest_data_point` and `bulk_ingest`): timestamp defaults to `now`,
quality score is `data_point.quality_score or 1.0` (Python truthiness), and
the `processed` column takes its schema default `False`. -/
def buildDataPoint (now : Int) (uid : Nat) (dp : PassiveDataCreate) : PassiveDataPoint :=
  { user_id := uid
    data_type := dp.data_type
    value := dp.value
    source := dp.source
    timestamp := dp.timestamp.getD now
    quality_score := pyOrQ dp.quality_score 1
    processed := false }

/-- Rejection reasons of single-point ingestion (`ValueError` messages in the
source, split by cause). -/
inductive IngestError where
  | validation (errors : List String)
  | duplicate
deriving DecidableEq

/-- Single-point ingestion `ingest_data_point`: validation precedes the
duplicate check; on success the new row is appended to the store and
returned. -/
def ingest_data_point (now : Int) (uid : Nat) (store : List PassiveDataPoint)
    (dp : PassiveDataCreate) :
    Except IngestError (List PassiveDataPoint × PassiveDataPoint) :=
  let errs := validate_data_point now dp
  if errs = [] then
    if _is_duplicate now uid store dp then .error .duplicate
    else
      let p := buildDataPoint now uid dp
      .ok (store ++ [p], p)
  else .error (.validation errs)

/-- Loop body of `bulk_ingest`: each item is validated and duplicate-checked
against the session (`self.db`), which still holds only the pre-call rows
because `add_all`/`commit` run after the loop; successfully built rows and
per-item error strings are accumulated in batch order (`i` is the running
item index). -/
def bulk_process (now : Int) (uid : Nat) (store : List PassiveDataPoint) :
    Nat → List PassiveDataCreate → List PassiveDataPoint × List String
  | _, [] => ([], [])
  | i, dp :: rest =>
    let (cs, es) := bulk_process now uid store (i + 1) rest
    let errs := validate_data_point now dp
    if errs = [] then
      if _is_duplicate now uid store dp then
        (cs, ("Item " ++ toString i ++ ": Duplicate data point") :: es)
      else (buildDataPoint now uid dp :: cs, es)
    else (cs, ("Item " ++ toString i ++ ": " ++ String.intercalate ", " errs) :: es)

/-- Bulk ingestion `bulk_ingest`: process every item against the pre-call
store, then batch-insert the created rows.  Returns (created points, error
strings, store after commit). -/
def bulk_ingest (now : Int) (uid : Nat) (store : List PassiveDataPoint)
    (items : List PassiveDataCreate) :
    List PassiveDataPoint × List String × List PassiveDataPoint :=
  let (cs, es) := bulk_process now uid store 0 items
  (cs, es, store ++ cs)

/-- Incoming check-in payload (`DailyCheckinCreate` schema). -/
structure DailyCheckinCreate where
  mood_rating : ℚ
  mood_category : Option String
  keywords : Option (List String)
  notes : Option String
  location : Option String
  weather : Option String
  energy_level : Option ℚ
  stress_level : Option ℚ
  sleep_quality : Option ℚ
  social_interaction : Option ℚ
deriving DecidableEq

/-- Persisted row of the `daily_checkins` table (autoincrement primary key
omitted).  `timestamp` takes the column default `func.now()` at creation. -/
structure DailyCheckin where
  user_id : Nat
  timestamp : Int
  mood_rating : ℚ
  mood_category : Option String
  keywords : List String
  notes : Option String
  location : Option String
  weather : Option String
  energy_level : Option ℚ
  stress_level : Option ℚ
  sleep_quality : Option ℚ
  social_interaction : Option ℚ
deriving DecidableEq

/-- Check-in creation `CheckinService.create_checkin`: look for an existing
check-in of the same user whose timestamp falls on today's calendar date
(`func.date(timestamp) == datetime.now().date()`); if found, raise
`ValueError("User already has a check-in for today")` before anything is
added to the session; otherwise insert a new row whose timestamp is the
current time.  Returns the error message or (new store, created row). -/
def create_checkin (now : Int) (store : List DailyCheckin) (uid : Nat)
    (d : DailyCheckinCreate) : Except String (List DailyCheckin × DailyCheckin) :=
  let today := dateOf now
  match store.find? (fun c => decide (c.user_id = uid ∧ dateOf c.timestamp = today)) with
  | some _ => .error "User already has a check-in for today"
  | none =>
    let c : DailyCheckin :=
      { user_id := uid
        timestamp := now
        mood_rating := d.mood_rating
        mood_category := d.mood_category
        keywords := d.keywords.getD []
        notes := d.notes
        location := d.location
        weather := d.weather
        energy_level := d.energy_level
        stress_level := d.stress_level
        sleep_quality := d.sleep_quality
        social_interaction := d.social_interaction }
    .ok (store ++ [c], c)

/-- Substring test on character lists, used to model the Python `in`
operator on strings. -/
def charsContain (l pat : List Char) : Bool :=
  (List.range (l.length + 1)).any (fun i => pat.isPrefixOf (l.drop i))

/-- Python `pat in s` for strings. -/
def strContains (s pat : String) : Bool :=
  charsContain s.toList pat.toList

/-- Exceptions raised by the HTTP router layer
(`backend/core/exceptions.py`): each carries the message and is mapped to a
fixed HTTP status code. -/
inductive ApiException where
  | validation (msg : String)
  | conflict (msg : String)
  | notFound (msg : String)
deriving DecidableEq

/-- HTTP status code of a router exception: 422 for validation, 409 for
conflict, 404 for not-found. -/
def ApiException.status_code : ApiException → Nat
  | .validation _ => 422
  | .conflict _ => 409
  | .notFound _ => 404

/-- POST /checkin handler (`create_checkin` in
`backend/api/routers/checkin.py`): calls the service and maps a `ValueError`
whose message contains "already has a check-in" to `ConflictException`, any
other `ValueError` to `ValidationException`.  Returns the outcome together
with the store after the call (unchanged when the service raised). -/
def create_checkin_route (now : Int) (store : List DailyCheckin) (uid : Nat)
    (d : DailyCheckinCreate) : Except ApiException DailyCheckin × List DailyCheckin :=
  match create_checkin now store uid d with
  | .ok (st, c) => (.ok c, st)
  | .error e =>
    if strContains e "already has a check-in" then (.error (.conflict e), store)
    else (.error (.validation e), store)

/-- Streak result record (`CheckinStreak` schema). -/
structure CheckinStreak where
  current_streak : Nat
  longest_streak : Nat
  total_checkins : Nat
  streak_start_date : Option Int
  days_since_last_checkin : Int
deriving DecidableEq

/-- Current-streak walk of `get_checkin_streak`: over the check-in dates in
timestamp-descending order, starting at today's date, count while each
check-in date equals the expected date (which then moves one day back);
stop at the first mismatch.  The streak start date is recorded at the first
increment.  State: expected date, streak so far, start date so far. -/
def currentStreakLoop : List Int → Int → Nat → Option Int → Nat × Option Int
  | [], _, streak, start => (streak, start)
  | d :: rest, expected, streak, start =>
    if d = expected then
      currentStreakLoop rest (expected - 1) (streak + 1)
        (if streak + 1 = 1 then some d else start)
    else (streak, start)

/-- Longest-streak scan of `get_checkin_streak`: over the check-in dates in
ascending order, keep a running consecutive-day counter that increments when
the previous date is one day earlier (or at the very first date) and resets
to 1 otherwise; the maximum is tracked only on the increment branch.
State: previous date, running counter, maximum so far. -/
def longestStreakLoop : List Int → Option Int → Nat → Nat → Nat
  | [], _, _, longest => longest
  | d :: rest, prev, temp, longest =>
    match prev with
    | none => longestStreakLoop rest (some d) (temp + 1) (max longest (temp + 1))
    | some p =>
      if d = p + 1 then longestStreakLoop rest (some d) (temp + 1) (max longest (temp + 1))
      else longestStreakLoop rest (some d) 1 longest

/-- Streak computation `get_checkin_streak`.  `checkins` is the user's full
check-in list as fetched by the service, ordered by timestamp descending;
`today` is `datetime.now().date()`.  Empty history returns the all-zero
result with a null start date. -/
def get_checkin_streak (today : Int) (checkins : List DailyCheckin) : CheckinStreak :=
  match checkins with
  | [] =>
    { current_streak := 0, longest_streak := 0, total_checkins := 0
      streak_start_date := none, days_since_last_checkin := 0 }
  | c0 :: _ =>
    let dates := checkins.map (fun c => dateOf c.timestamp)
    let (cur, start) := currentStreakLoop dates today 0 none
    let longest := longestStreakLoop dates.reverse none 0 0
    { current_streak := cur
      longest_streak := longest
      total_checkins := checkins.length
      streak_start_date := start
      days_since_last_checkin := today - dateOf c0.timestamp }

/-- Arithmetic mean of a list of rationals (`sum(x) / n`); the empty list
gives 0 by rational division-by-zero, matching the `n == 0` guard of the
source's `simple_correlation`. -/
def listMean (x : List ℚ) : ℚ := x.sum / x.length

/-- Python `min(list)` on a nonempty list (empty case unreachable in the
source; 0 there). -/
def pyMin (l : List ℚ) : ℚ :=
  match l with
  | [] => 0
  | x :: xs => xs.foldl min x

/-- Python `max(list)` on a nonempty list (empty case unreachable in the
source; 0 there). -/
def pyMax (l : List ℚ) : ℚ :=
  match l with
  | [] => 0
  | x :: xs => xs.foldl max x

/-- Python `categories.count(x)`: number of occurrences of `x` in the
list. -/
def countOf (l : List String) (x : String) : Nat :=
  (l.filter (fun y => decide (y = x))).length

/-- Reduction step of Python `max(iterable, key=l.count)`: the running best
is replaced only on a strictly greater count, so the first maximal element
of the iteration wins ties. -/
def pickMoreCommon (l : List String) (best x : String) : String :=
  if countOf l best < countOf l x then x else best

/-- Python `max(iterable, key=categories.count)` over the iteration order
given by the first argument: `none` on an empty iterable (where CPython
would raise). -/
def pyMaxByCount : List String → List String → Option String
  | [], _ => none
  | c :: cs, l => some (cs.foldl (pickMoreCommon l) c)

/-- Keep-first deduplication of a list.  Used as one concrete, valid
iteration order for a Python `set` built from a list. -/
def pyDedup {α : Type} [DecidableEq α] : List α → List α
  | [] => []
  | a :: rest => a :: pyDedup (rest.filter (fun b => decide (b ≠ a)))
termination_by l => l.length
decreasing_by
  simp only [List.length_cons]
  exact Nat.lt_succ_of_le (List.length_filter_le _ _)

/-- Iteration order of the Python expression `set(categories)`: CPython
yields the distinct elements in hash-table order, which is unspecified (and
randomized for strings).  The analytics engine is therefore parameterized by
an enumeration function; a function is a valid enumeration when, on every
list, it returns each distinct element exactly once. -/
def ValidSetEnum (enum : List String → List String) : Prop :=
  ∀ l : List String, (enum l).Nodup ∧ ∀ x, x ∈ enum l ↔ x ∈ l

/-- Non-null categories of a window of check-ins: the list comprehension
`[c.mood_category for c in checkins if c.mood_category]` (Python truthiness:
`None` and the empty string are excluded). -/
def pyCategories (cs : List DailyCheckin) : List String :=
  cs.filterMap (fun c =>
    match c.mood_category with
    | none => none
    | some s => if s = "" then none else some s)

/-- Numerator of the source's `simple_correlation`:
`sum((x[i]-mean_x)*(y[i]-mean_y))`, written over the zip of the two lists
(the source indexes over `range(n)` with `n = len(x)`; both series here
always come from the same check-in list, so the lengths coincide). -/
def corrNum (x y : List ℚ) : ℚ :=
  ((x.zip y).map (fun p => (p.1 - listMean x) * (p.2 - listMean y))).sum

/-- Sum of squared deviations `sum((x[i]-mean_x)**2)` of one series. -/
def devSq (x : List ℚ) : ℚ :=
  (x.map (fun a => (a - listMean x) ^ 2)).sum

/-- Square of the source's correlation denominator
`(sum((x-mx)^2) * sum((y-my)^2)) ** 0.5`. -/
def corrDenSq (x y : List ℚ) : ℚ := devSq x * devSq y

/-- Decides `simple_correlation(x, y) > c` for a positive threshold `c`,
avoiding the square root: the correlation is `corrNum / sqrt corrDenSq`
(and 0.0 on a zero denominator), `corrDenSq ≥ 0` always, and for `c > 0`
the comparison `num / sqrt d > c` is equivalent to
`d ≠ 0 ∧ num > 0 ∧ num² > c²·d` (see `corrGtB_eq_true_iff`). -/
def corrGtB (x y : List ℚ) (c : ℚ) : Bool :=
  decide (¬corrDenSq x y = 0 ∧ 0 < corrNum x y ∧
          c ^ 2 * corrDenSq x y < corrNum x y ^ 2)

/-- Decides `simple_correlation(x, y) < c` for a negative threshold `c`,
avoiding the square root: for `c < 0` the comparison `num / sqrt d < c` is
equivalent to `d ≠ 0 ∧ num < 0 ∧ num² > c²·d` (see
`corrLtB_eq_true_iff`). -/
def corrLtB (x y : List ℚ) (c : ℚ) : Bool :=
  decide (¬corrDenSq x y = 0 ∧ corrNum x y < 0 ∧
          c ^ 2 * corrDenSq x y < corrNum x y ^ 2)

/-- Correlation insights `_calculate_correlations`: empty for fewer than 5
check-ins; otherwise Pearson correlations of mood against energy, stress and
sleep quality (missing optional values defaulting to 5.0 by Python `or`)
drive three independent insight entries: energy has both a positive branch
(above 0.3) and a negative branch (below −0.3), stress only a negative
branch, and sleep only a positive branch. -/
def _calculate_correlations (cs : List DailyCheckin) : List (String × String) :=
  if cs.length < 5 then []
  else
    let mood := cs.map (fun c => c.mood_rating)
    let energy := cs.map (fun c => pyOrQ c.energy_level 5)
    let stress := cs.map (fun c => pyOrQ c.stress_level 5)
    let sleep := cs.map (fun c => pyOrQ c.sleep_quality 5)
    (if corrGtB mood energy (3 / 10) then
       [("energy", "Your mood tends to be higher when your energy levels are good")]
     else if corrLtB mood energy (-(3 / 10)) then
       [("energy", "Your mood tends to be lower when your energy levels are low")]
     else []) ++
    (if corrLtB mood stress (-(3 / 10)) then
       [("stress", "Higher stress levels appear to negatively impact your mood")]
     else []) ++
    (if corrGtB mood sleep (3 / 10) then
       [("sleep", "Good sleep quality seems to positively influence your mood")]
     else [])

/-- Increment of one keyword's counter in the insertion-ordered frequency
dict (`keyword_frequency[keyword] = keyword_frequency.get(keyword, 0) + 1`). -/
def bumpKey : List (String × Nat) → String → List (String × Nat)
  | [], k => [(k, 1)]
  | (k', n) :: rest, k =>
    if k' = k then (k', n + 1) :: rest else (k', n) :: bumpKey rest k

/-- Keyword frequency map over a window of check-ins, in insertion order. -/
def keywordFrequency (cs : List DailyCheckin) : List (String × Nat) :=
  cs.foldl (fun acc c => c.keywords.foldl bumpKey acc) []

/-- One element of the mood trend series (`MoodTrend` schema). -/
structure MoodTrend where
  date : Int
  mood_rating : ℚ
  energy_level : Option ℚ
  stress_level : Option ℚ
  sleep_quality : Option ℚ
deriving DecidableEq

/-- Mood analytics result (`MoodAnalytics` schema); the `mood_range` dict is
modelled by its two entries, the two dict-valued fields by insertion-ordered
association lists.  The `period` passthrough field is omitted. -/
structure MoodAnalytics where
  average_mood : ℚ
  mood_range_min : ℚ
  mood_range_max : ℚ
  most_common_category : Option String
  trend_direction : String
  trend_data : List MoodTrend
  keyword_frequency : List (String × Nat)
  correlation_insights : List (String × String)
deriving DecidableEq

/-- Mood analytics `get_mood_analytics`.  `cs` is the window's check-in list
as fetched by the service (timestamp-ascending; the period-based date
filtering is modelled by the argument), `setEnum` the iteration order of
Python `set` (see `ValidSetEnum`).  An empty window returns the zeroed
result.  Trend direction splits the rating sequence at `len // 2` and
compares half means against a 0.5 margin. -/
def get_mood_analytics (setEnum : List String → List String)
    (cs : List DailyCheckin) : MoodAnalytics :=
  match cs with
  | [] =>
    { average_mood := 0, mood_range_min := 0, mood_range_max := 0
      most_common_category := none, trend_direction := "stable"
      trend_data := [], keyword_frequency := [], correlation_insights := [] }
  | _ :: _ =>
    let ratings := cs.map (fun c => c.mood_rating)
    let n := ratings.length
    let cats := pyCategories cs
    { average_mood := ratings.sum / n
      mood_range_min := pyMin ratings
      mood_range_max := pyMax ratings
      most_common_category :=
        if cats.isEmpty then none else pyMaxByCount (setEnum cats) cats
      trend_direction :=
        if n < 2 then "stable"
        else
          let fh := ratings.take (n / 2)
          let sh := ratings.drop (n / 2)
          let fa := fh.sum / fh.length
          let sa := sh.sum / sh.length
          if fa + 1 / 2 < sa then "improving"
          else if sa < fa - 1 / 2 then "declining"
          else "stable"
      trend_data := cs.map (fun c =>
        { date := dateOf c.timestamp
          mood_rating := c.mood_rating
          energy_level := c.energy_level
          stress_level := c.stress_level
          sleep_quality := c.sleep_quality })
      keyword_frequency := keywordFrequency cs
      correlation_insights := _calculate_correlations cs }

/-- Civil calendar month of a day index (days since 1970-01-01), encoded as
`year * 12 + (month - 1)`; standard days-to-civil conversion, used to model
the `"%Y-%m"` monthly bucket key. -/
def monthIndexOfDay (z : Int) : Int :=
  let z' := z + 719468
  let era := z'.fdiv 146097
  let doe := z' - era * 146097
  let yoe := (doe - doe.fdiv 1460 + doe.fdiv 36524 - doe.fdiv 146096).fdiv 365
  let y := yoe + era * 400
  let doy := doe - (365 * yoe + yoe.fdiv 4 - yoe.fdiv 100)
  let mp := (5 * doy + 2).fdiv 153
  let m := if mp < 10 then mp + 3 else mp - 9
  let yr := if m ≤ 2 then y + 1 else y
  yr * 12 + (m - 1)

/-- Bucket key of a timestamp for one aggregation period, mirroring the
`strftime`-based keys of `aggregate_data`: hourly truncates to the hour,
daily to the calendar date, weekly to the Monday on or before the date
(`timestamp - timedelta(days=weekday())`; day 0 of the time axis is a
Monday, so the weekday is the day index mod 7), monthly to the calendar
month.  Each string key of the source corresponds bijectively to the integer
key here within its period. -/
def aggKey (period : String) (t : Int) : Int :=
  if period = "hourly" then t.fdiv 60
  else if period = "daily" then dateOf t
  else if period = "weekly" then dateOf t - (dateOf t).emod 7
  else monthIndexOfDay (dateOf t)

/-- Insertion step of the grouping dict in `aggregate_data`: append the
value to the key's list, creating the entry at the end on a new key
(Python dict insertion order). -/
def addToGroup : List (Int × List ℚ) → Int → ℚ → List (Int × List ℚ)
  | [], k, v => [(k, [v])]
  | (k', vs) :: rest, k, v =>
    if k' = k then (k', vs ++ [v]) :: rest else (k', vs) :: addToGroup rest k v

/-- Grouping loop of `aggregate_data` over the fetched points: each point's
numeric value is appended to the bucket of its period key. -/
def groupValues (period : String) (pts : List PassiveDataPoint) : List (Int × List ℚ) :=
  pts.foldl (fun g p => addToGroup g (aggKey period p.timestamp) p.get_numeric_value) []

/-- Aggregation bucket (`DataAggregation` schema), keyed by the integer
period key; the derived `start_date`/`end_date` bounds and the
`source_breakdown` map (neither read by any claim) are omitted. -/
structure DataAggregation where
  key : Int
  aggregated_value : ℚ
  count : Nat
deriving DecidableEq

/-- Data types whose buckets are summed rather than averaged, from the
membership test in `aggregate_data`. -/
def countingDataTypes : List String := ["step_count", "notification_count", "message_count"]

/-- Aggregation `aggregate_data` over the fetched points of one user and
data type (the user/type/date-range fetch and its 10000-row limit are
modelled by the `pts` argument): group values by period key, then reduce
each bucket by sum for the counting data types and by arithmetic mean
otherwise.  The final sort by bucket start time permutes the result and is
omitted (bucket contents are unaffected). -/
def aggregate_data (data_type period : String) (pts : List PassiveDataPoint) :
    List DataAggregation :=
  (groupValues period pts).map (fun g =>
    { key := g.1
      aggregated_value :=
        if data_type ∈ countingDataTypes then g.2.sum
        else g.2.sum / g.2.length
      count := g.2.length })

/-!
Specification-side definitions.  Each of the following is stated from the
words of the specification / claim it serves, to be compared with the
source-derived functions above.
-/

/-- Length of the run of consecutive days continuing from day `p` at the
head of an ascending date list: counts while each date is exactly one day
after the previous. -/
def chainLen (p : Int) : List Int → Nat
  | [] => 0
  | d :: rest => if d = p + 1 then 1 + chainLen d rest else 0

/-- Remainder of an ascending date list after dropping the run of
consecutive days continuing from day `p`. -/
def chainDrop (p : Int) : List Int → List Int
  | [] => []
  | d :: rest => if d = p + 1 then chainDrop d rest else d :: rest

/-- Stated from the specification: the length of the longest run of
consecutive calendar days in an ascending date list — each maximal run of
consecutive days contributes its length, and the longest wins. -/
def longestRun : List Int → Nat
  | [] => 0
  | d :: rest => max (1 + chainLen d rest) (longestRun (chainDrop d rest))
termination_by l => l.length
decreasing_by
  have h : ∀ (p : Int) (l : List Int), (chainDrop p l).length ≤ l.length := by
    intro p l
    induction l generalizing p with
    | nil => simp [chainDrop]
    | cons e rest ih =>
      simp only [chainDrop]
      split
      · exact Nat.le_succ_of_le (ih e)
      · exact Nat.le_refl _
  exact Nat.lt_succ_of_le (h d rest)

/-- Recorded-maximum view of `longestStreakLoop` from a mid-loop state
(previous date `p`, running counter `t`): the largest counter value the loop
will still record, 0 if it records none.  Proof helper for relating the loop
to `longestRun`. -/
def recMax (p : Int) (t : Nat) : List Int → Nat
  | [] => 0
  | d :: rest =>
    if d = p + 1 then max (t + 1) (recMax d (t + 1) rest) else recMax d 1 rest

/-- Stated from the specification (claim C5): split the chronologically
ordered rating sequence at index `⌊n/2⌋`, compare the half means, and call
the trend improving/declining only beyond a 0.5 margin; fewer than 2 ratings
give "stable". -/
def trendDirectionSpec (ratings : List ℚ) : String :=
  let n := ratings.length
  if n < 2 then "stable"
  else
    let firstHalf := ratings.take (n / 2)
    let secondHalf := ratings.drop (n / 2)
    let firstMean := firstHalf.sum / firstHalf.length
    let secondMean := secondHalf.sum / secondHalf.length
    if firstMean + 1 / 2 < secondMean then "improving"
    else if secondMean < firstMean - 1 / 2 then "declining"
    else "stable"

/-- Stated from the specification (claim C9): the mode of the category list
with ties broken by the first-encountered element, i.e. the first element of
the list whose count is maximal. -/
def firstModeOfTies (cats : List String) : Option String :=
  cats.find? (fun x => decide (∀ y ∈ cats, countOf cats y ≤ countOf cats x))

/-- Lookup of one key's value list in a grouping dict, empty for an absent
key.  Proof-support accessor for reasoning about `groupValues`. -/
def lookupGroup : List (Int × List ℚ) → Int → List ℚ
  | [], _ => []
  | (k', vs) :: rest, k => if k' = k then vs else lookupGroup rest k

/-- Fixture builder for concrete check-in payloads carrying only a mood
rating. -/
def simpleCheckinPayload (mood : ℚ) : DailyCheckinCreate :=
  { mood_rating := mood, mood_category := none, keywords := none, notes := none
    location := none, weather := none, energy_level := none, stress_level := none
    sleep_quality := none, social_interaction := none }

/-- Fixture builder for concrete check-ins: the claim-relevant fields are
supplied, the remaining optional fields are absent and the keyword list
empty. -/
def mkCheckin (uid : Nat) (ts : Int) (mood : ℚ) (cat : Option String)
    (energy stress sleep : Option ℚ) : DailyCheckin :=
  { user_id := uid, timestamp := ts, mood_rating := mood, mood_category := cat
    keywords := [], notes := none, location := none, weather := none
    energy_level := energy, stress_level := stress, sleep_quality := sleep
    social_interaction := none }

/-- Fixture builder for concrete persisted passive data points with a
numeric value, quality 1 and `processed = false`. -/
def mkStoredPoint (uid : Nat) (ts : Int) (dtype : String) (v : ℚ)
    (src : String) : PassiveDataPoint :=
  { user_id := uid, data_type := dtype, value := .num v, source := src
    timestamp := ts, quality_score := 1, processed := false }

/-- Fixture builder for concrete incoming passive data points with a numeric
value. -/
def mkCreatePoint (dtype : String) (v : ℚ) (src : String) (ts : Option Int)
    (qs : Option ℚ) : PassiveDataCreate :=
  { data_type := dtype, value := .num v, source := src, timestamp := ts
    quality_score := qs }

/-!
Theorems.  Each claim of the specification review is settled by one theorem
below (with a witness instance when the theorem carries hypotheses, and a
counterexample where the claim as stated fails on the code).
-/

/-- Claim C8: analytics operations never error on empty input — with no
check-ins the streak result is all-zero with a null start date, and the
mood analytics of an empty window is the zeroed record: average 0.0, range
{0.0, 0.0}, no most-common category, "stable" trend, and empty trend,
keyword-frequency and correlation-insight collections. -/
theorem c8_empty_input_zero_results (today : Int)
    (setEnum : List String → List String) :
    get_checkin_streak today [] =
      { current_streak := 0, longest_streak := 0, total_checkins := 0
        streak_start_date := none, days_since_last_checkin := 0 } ∧
    get_mood_analytics setEnum [] =
      { average_mood := 0, mood_range_min := 0, mood_range_max := 0
        most_common_category := none, trend_direction := "stable"
        trend_data := [], keyword_frequency := [], correlation_insights := [] } :=
  ⟨rfl, rfl⟩

/-- Claim C5: for every window, the trend direction of the mood analytics is
obtained by splitting the chronologically ordered rating sequence at index
`⌊n/2⌋` and comparing half means against a 0.5 margin ("stable" below 2
ratings), and on the example ratings [4,4,4,6,8,8] the average mood is 17/3
and the trend "improving". -/
theorem c5_trend_direction (setEnum : List String → List String)
    (cs : List DailyCheckin) :
    (get_mood_analytics setEnum cs).trend_direction =
      trendDirectionSpec (cs.map (fun c => c.mood_rating)) ∧
    (get_mood_analytics setEnum
      [mkCheckin 1 0 4 none none none none,
       mkCheckin 1 1440 4 none none none none,
       mkCheckin 1 2880 4 none none none none,
       mkCheckin 1 4320 6 none none none none,
       mkCheckin 1 5760 8 none none none none,
       mkCheckin 1 7200 8 none none none none]).average_mood = 17 / 3 ∧
    (get_mood_analytics setEnum
      [mkCheckin 1 0 4 none none none none,
       mkCheckin 1 1440 4 none none none none,
       mkCheckin 1 2880 4 none none none none,
       mkCheckin 1 4320 6 none none none none,
       mkCheckin 1 5760 8 none none none none,
       mkCheckin 1 7200 8 none none none none]).trend_direction = "improving" := by
  refine ⟨?_, ?_, ?_⟩
  · cases cs with
    | nil => rfl
    | cons c rest => rfl
  · norm_num [get_mood_analytics, mkCheckin]
  · norm_num [get_mood_analytics, mkCheckin]

theorem longestStreakLoop_some (l : List Int) :
    ∀ (p : Int) (t longest : Nat),
      longestStreakLoop l (some p) t longest = max longest (recMax p t l) := by
  induction l with
  | nil => intro p t longest; simp [longestStreakLoop, recMax]
  | cons d rest ih =>
    intro p t longest
    by_cases hd : d = p + 1
    · simp only [longestStreakLoop, recMax, if_pos hd, ih]
      omega
    · simp only [longestStreakLoop, recMax, if_neg hd, ih]

theorem max_recMax (l : List Int) :
    ∀ (p : Int) (t : Nat), 1 ≤ t →
      max t (recMax p t l) = max (t + chainLen p l) (longestRun (chainDrop p l)) := by
  induction l with
  | nil => intro p t _; simp [recMax, chainLen, chainDrop, longestRun]
  | cons d rest ih =>
    intro p t ht
    by_cases hd : d = p + 1
    · simp only [recMax, chainLen, chainDrop, if_pos hd]
      have h2 := ih d (t + 1) (by omega)
      omega
    · simp only [recMax, chainLen, chainDrop, if_neg hd]
      have h1 := ih d 1 (Nat.le_refl 1)
      rw [longestRun]
      omega

theorem longestStreakLoop_eq_longestRun (l : List Int) :
    longestStreakLoop l none 0 0 = longestRun l := by
  cases l with
  | nil => simp [longestStreakLoop, longestRun]
  | cons d rest =>
    have h0 : longestStreakLoop (d :: rest) none 0 0 =
        longestStreakLoop rest (some d) 1 1 := rfl
    rw [h0, longestStreakLoop_some, longestRun]
    have h1 := max_recMax rest d 1 (Nat.le_refl 1)
    omega

/-- Claim C2: for every check-in history (one per day, fetched in
timestamp-descending order) containing no check-in dated today, the current
streak is 0 regardless of how long the run ending yesterday is, while the
longest streak equals the length of the longest run of consecutive calendar
days that have check-ins (`longestRun` of the ascending date sequence). -/
theorem c2_streak_no_checkin_today (today : Int) (checkins : List DailyCheckin)
    (_hdesc : List.Pairwise (fun a b => b < a)
      (checkins.map (fun c => dateOf c.timestamp)))
    (hnotoday : ∀ c ∈ checkins, dateOf c.timestamp ≠ today) :
    (get_checkin_streak today checkins).current_streak = 0 ∧
    (get_checkin_streak today checkins).longest_streak =
      longestRun ((checkins.map (fun c => dateOf c.timestamp)).reverse) := by
  cases checkins with
  | nil => exact ⟨rfl, by simp [get_checkin_streak, longestRun]⟩
  | cons c0 rest =>
    constructor
    · have h0 : dateOf c0.timestamp ≠ today := hnotoday c0 (List.mem_cons_self c0 rest)
      simp [get_checkin_streak, currentStreakLoop, if_neg h0]
    · simp only [get_checkin_streak]
      exact longestStreakLoop_eq_longestRun _

/-- Witness for claim C2: with check-ins on days 99, 98, 97, 95 and 94 and
today = day 100, the current streak is 0 while the longest streak is 3. -/
theorem c2_streak_no_checkin_today_witness :
    (get_checkin_streak 100
      [mkCheckin 1 (99 * 1440) 5 none none none none,
       mkCheckin 1 (98 * 1440) 5 none none none none,
       mkCheckin 1 (97 * 1440) 5 none none none none,
       mkCheckin 1 (95 * 1440) 5 none none none none,
       mkCheckin 1 (94 * 1440) 5 none none none none]).current_streak = 0 ∧
    (get_checkin_streak 100
      [mkCheckin 1 (99 * 1440) 5 none none none none,
       mkCheckin 1 (98 * 1440) 5 none none none none,
       mkCheckin 1 (97 * 1440) 5 none none none none,
       mkCheckin 1 (95 * 1440) 5 none none none none,
       mkCheckin 1 (94 * 1440) 5 none none none none]).longest_streak = 3 := by
  have h := c2_streak_no_checkin_today 100
    [mkCheckin 1 (99 * 1440) 5 none none none none,
     mkCheckin 1 (98 * 1440) 5 none none none none,
     mkCheckin 1 (97 * 1440) 5 none none none none,
     mkCheckin 1 (95 * 1440) 5 none none none none,
     mkCheckin 1 (94 * 1440) 5 none none none none]
    (by decide) (by decide)
  refine ⟨h.1, ?_⟩
  rw [h.2]
  have hdates : (([mkCheckin 1 (99 * 1440) 5 none none none none,
      mkCheckin 1 (98 * 1440) 5 none none none none,
      mkCheckin 1 (97 * 1440) 5 none none none none,
      mkCheckin 1 (95 * 1440) 5 none none none none,
      mkCheckin 1 (94 * 1440) 5 none none none none].map
        (fun c => dateOf c.timestamp)).reverse : List Int) =
      [94, 95, 97, 98, 99] := by decide
  rw [hdates]
  simp [longestRun, chainLen, chainDrop]

/-- Claim C4: for every payload, creating a second check-in for the same
user at ANY later clock reading on the same calendar date as a successful
first create (whose persisted row is dated that day) fails at the router
with the 409 ConflictException carrying the "already has a check-in for
today" message — not with a ValidationException — and leaves the store
unchanged. -/
theorem c4_second_checkin_conflict (now now2 : Int) (store : List DailyCheckin)
    (uid : Nat) (d1 d2 : DailyCheckinCreate) (st1 : List DailyCheckin)
    (c1 : DailyCheckin)
    (h1 : create_checkin now store uid d1 = .ok (st1, c1))
    (hday : dateOf now2 = dateOf now) :
    create_checkin_route now2 st1 uid d2 =
      (.error (.conflict "User already has a check-in for today"), st1) ∧
    (ApiException.conflict "User already has a check-in for today").status_code = 409 ∧
    ∀ m, (create_checkin_route now2 st1 uid d2).1 ≠ .error (.validation m) := by
  cases hf : store.find?
      (fun c => decide (c.user_id = uid ∧ dateOf c.timestamp = dateOf now)) with
  | some c =>
    simp only [create_checkin, hf] at h1
    exact absurd h1 (by simp)
  | none =>
    simp only [create_checkin, hf] at h1
    rw [Except.ok.injEq, Prod.mk.injEq] at h1
    obtain ⟨hst, hc⟩ := h1
    have hfind : st1.find?
        (fun c => decide (c.user_id = uid ∧ dateOf c.timestamp = dateOf now2)) =
        some c1 := by
      rw [hday, ← hst, List.find?_append, hf]
      subst hc
      simp
    have herr : create_checkin now2 st1 uid d2 =
        .error "User already has a check-in for today" := by
      simp only [create_checkin, hfind]
    have hsub : strContains "User already has a check-in for today"
        "already has a check-in" = true := by decide
    have hroute : create_checkin_route now2 st1 uid d2 =
        (.error (.conflict "User already has a check-in for today"), st1) := by
      simp [create_checkin_route, herr, hsub]
    exact ⟨hroute, rfl, by simp [hroute]⟩

/-- Witness for claim C4: after user 1's successful check-in at minute 0, a
second create ten hours later (minute 600, still calendar day 0) is rejected
by the router as a 409 conflict and the store keeps exactly the first
row. -/
theorem c4_second_checkin_conflict_witness :
    create_checkin_route 600
      [{ user_id := 1, timestamp := 0, mood_rating := 5, mood_category := none
         keywords := [], notes := none, location := none, weather := none
         energy_level := none, stress_level := none, sleep_quality := none
         social_interaction := none }] 1 (simpleCheckinPayload 7) =
      (.error (.conflict "User already has a check-in for today"),
       [{ user_id := 1, timestamp := 0, mood_rating := 5, mood_category := none
          keywords := [], notes := none, location := none, weather := none
          energy_level := none, stress_level := none, sleep_quality := none
          social_interaction := none }]) := by
  exact (c4_second_checkin_conflict 0 600 [] 1 (simpleCheckinPayload 5)
    (simpleCheckinPayload 7) _ _ rfl (by decide)).1

theorem is_duplicate_iff (now : Int) (uid : Nat) (store : List PassiveDataPoint)
    (dp : PassiveDataCreate) :
    _is_duplicate now uid store dp = true ↔
      ∃ e, store.find? (windowMatch uid dp (dp.timestamp.getD now)) = some e ∧
        _create_data_hash dp = _create_data_hash_from_db e := by
  cases hf : store.find? (windowMatch uid dp (dp.timestamp.getD now)) with
  | some e =>
    simp only [_is_duplicate, hf, decide_eq_true_eq]
    constructor
    · exact fun h => ⟨e, rfl, h⟩
    · rintro ⟨e', he', hh⟩
      cases he'
      exact hh
  | none => simp only [_is_duplicate, hf]; simp

/-- Claim C1 (amended): a valid passive data point is rejected as duplicate
exactly when the FIRST already-persisted point of the same (user, data_type,
source) within the ±5-minute window — in store insertion order, the
un-ordered `.first()` of the window query — has an equal content hash;
consequently, for p1, p2 with identical (user, data_type, source) and
timestamps within 5 minutes, ingested into a store holding no other point of
that (user, data_type, source) in either window: ingest(p1) succeeds, and
ingest(p2) after it is rejected as duplicate when the values are equal while
both succeed when the values differ. -/
theorem c1_duplicate_iff_first_window_match
    (now : Int) (uid : Nat) (store : List PassiveDataPoint)
    (dp p1 p2 : PassiveDataCreate) (t1 t2 : Int)
    (hv : validate_data_point now dp = [])
    (hv1 : validate_data_point now p1 = [])
    (hv2 : validate_data_point now p2 = [])
    (ht1 : p1.timestamp = some t1) (ht2 : p2.timestamp = some t2)
    (hdt : p1.data_type = p2.data_type) (hsrc : p1.source = p2.source)
    (hwin : (t1 - t2).natAbs ≤ 5)
    (hclean : ∀ e ∈ store, ¬(e.user_id = uid ∧ e.data_type = p1.data_type ∧
      e.source = p1.source ∧
      ((t1 - 5 ≤ e.timestamp ∧ e.timestamp ≤ t1 + 5) ∨
       (t2 - 5 ≤ e.timestamp ∧ e.timestamp ≤ t2 + 5)))) :
    (ingest_data_point now uid store dp = .error .duplicate ↔
      ∃ e, store.find? (windowMatch uid dp (dp.timestamp.getD now)) = some e ∧
        _create_data_hash dp = _create_data_hash_from_db e) ∧
    ∃ st1, ingest_data_point now uid store p1 = .ok (st1, buildDataPoint now uid p1) ∧
      (p1.value = p2.value →
        ingest_data_point now uid st1 p2 = .error .duplicate) ∧
      (¬p1.value = p2.value →
        ingest_data_point now uid st1 p2 =
          .ok (st1 ++ [buildDataPoint now uid p2], buildDataPoint now uid p2)) := by
  constructor
  · have hing : ingest_data_point now uid store dp =
        if _is_duplicate now uid store dp then .error .duplicate
        else .ok (store ++ [buildDataPoint now uid dp], buildDataPoint now uid dp) := by
      simp [ingest_data_point, hv]
    rw [hing]
    by_cases hdup : _is_duplicate now uid store dp
    · simp only [if_pos hdup]
      exact iff_of_true trivial ((is_duplicate_iff now uid store dp).mp hdup)
    · simp only [if_neg hdup]
      refine iff_of_false (by simp) (fun h => hdup ?_)
      exact (is_duplicate_iff now uid store dp).mpr h
  · have hfind1 : store.find? (windowMatch uid p1 t1) = none :=
      List.find?_eq_none.mpr (fun e he => by
        simp only [windowMatch, decide_eq_true_eq]
        rintro ⟨hu, hd, hs, hlo, hhi⟩
        exact hclean e he ⟨hu, hd, hs, Or.inl ⟨hlo, hhi⟩⟩)
    have hdup1 : _is_duplicate now uid store p1 = false := by
      simp only [_is_duplicate, ht1, Option.getD_some, hfind1]
    have hing1 : ingest_data_point now uid store p1 =
        .ok (store ++ [buildDataPoint now uid p1], buildDataPoint now uid p1) := by
      simp [ingest_data_point, hv1, hdup1]
    have hfind2none : store.find? (windowMatch uid p2 t2) = none :=
      List.find?_eq_none.mpr (fun e he => by
        simp only [windowMatch, decide_eq_true_eq]
        rintro ⟨hu, hd, hs, hlo, hhi⟩
        exact hclean e he ⟨hu, hdt ▸ hd, hsrc ▸ hs, Or.inr ⟨hlo, hhi⟩⟩)
    have hpred : windowMatch uid p2 t2 (buildDataPoint now uid p1) = true := by
      simp only [windowMatch, buildDataPoint, ht1, Option.getD_some, decide_eq_true_eq]
      exact ⟨trivial, hdt, hsrc, by omega, by omega⟩
    have hfind2 : (store ++ [buildDataPoint now uid p1]).find?
        (windowMatch uid p2 t2) = some (buildDataPoint now uid p1) := by
      rw [List.find?_append, hfind2none]
      simp [List.find?, hpred]
    have hdup2 : _is_duplicate now uid (store ++ [buildDataPoint now uid p1]) p2 =
        decide (_create_data_hash p2 =
          _create_data_hash_from_db (buildDataPoint now uid p1)) := by
      simp only [_is_duplicate, ht2, Option.getD_some, hfind2]
    have hhash : (_create_data_hash p2 =
        _create_data_hash_from_db (buildDataPoint now uid p1)) ↔
        p2.value = p1.value := by
      simp [_create_data_hash, _create_data_hash_from_db, buildDataPoint, hdt, hsrc]
    refine ⟨store ++ [buildDataPoint now uid p1], hing1, ?_, ?_⟩
    · intro hveq
      have hd2 : _is_duplicate now uid (store ++ [buildDataPoint now uid p1]) p2 = true := by
        rw [hdup2, decide_eq_true_eq, hhash]
        exact hveq.symm
      simp [ingest_data_point, hv2, hd2]
    · intro hvne
      have hd2 : _is_duplicate now uid (store ++ [buildDataPoint now uid p1]) p2 = false := by
        rw [hdup2, decide_eq_false_iff_not, hhash]
        exact fun h => hvne h.symm
      simp [ingest_data_point, hv2, hd2]

/-- Counterexample to claim C1 as stated: the store already holds an older
point (value 60 at minute 1000) of the same (user, data_type, source).
p1 (value 62 at minute 1001) and p2 (value 62 at minute 1002) are valid and
identical in (user, data_type, source, value) with timestamps 1 minute
apart, yet ingest(p2) after ingest(p1) SUCCEEDS — the claim demands
DuplicateError — because only the first window match (the value-60 point) is
hash-compared, even though p1's persisted point sits in p2's window with an
equal content hash. -/
theorem c1_counterexample :
    (validate_data_point 1002 (mkCreatePoint "heart_rate" 62 "wearable" (some 1001) none) = [] ∧
     validate_data_point 1002 (mkCreatePoint "heart_rate" 62 "wearable" (some 1002) none) = []) ∧
    ingest_data_point 1002 1 [mkStoredPoint 1 1000 "heart_rate" 60 "wearable"]
      (mkCreatePoint "heart_rate" 62 "wearable" (some 1001) none) =
      .ok ([mkStoredPoint 1 1000 "heart_rate" 60 "wearable",
            mkStoredPoint 1 1001 "heart_rate" 62 "wearable"],
           mkStoredPoint 1 1001 "heart_rate" 62 "wearable") ∧
    ingest_data_point 1002 1
      [mkStoredPoint 1 1000 "heart_rate" 60 "wearable",
       mkStoredPoint 1 1001 "heart_rate" 62 "wearable"]
      (mkCreatePoint "heart_rate" 62 "wearable" (some 1002) none) =
      .ok ([mkStoredPoint 1 1000 "heart_rate" 60 "wearable",
            mkStoredPoint 1 1001 "heart_rate" 62 "wearable",
            mkStoredPoint 1 1002 "heart_rate" 62 "wearable"],
           mkStoredPoint 1 1002 "heart_rate" 62 "wearable") ∧
    _create_data_hash (mkCreatePoint "heart_rate" 62 "wearable" (some 1002) none) =
      _create_data_hash_from_db (mkStoredPoint 1 1001 "heart_rate" 62 "wearable") ∧
    ((1001 : Int) - 1002).natAbs ≤ 5 := by
  exact ⟨⟨rfl, rfl⟩, rfl, rfl, rfl, by decide⟩

/-- Witness for the amended claim C1: with an empty store, ingesting the
value-62 point at minute 1001 succeeds and re-ingesting the same
(data_type, source, value) at minute 1002 is rejected as duplicate. -/
theorem c1_witness :
    ∃ st1, ingest_data_point 1002 1 []
        (mkCreatePoint "heart_rate" 62 "wearable" (some 1001) none) =
        .ok (st1, buildDataPoint 1002 1
          (mkCreatePoint "heart_rate" 62 "wearable" (some 1001) none)) ∧
      ingest_data_point 1002 1 st1
        (mkCreatePoint "heart_rate" 62 "wearable" (some 1002) none) =
        .error .duplicate := by
  obtain ⟨st1, h1, h2, -⟩ :=
    (c1_duplicate_iff_first_window_match 1002 1 []
      (mkCreatePoint "heart_rate" 62 "wearable" (some 1001) none)
      (mkCreatePoint "heart_rate" 62 "wearable" (some 1001) none)
      (mkCreatePoint "heart_rate" 62 "wearable" (some 1002) none)
      1001 1002 rfl rfl rfl rfl rfl rfl rfl (by decide) (by simp)).2
  exact ⟨st1, h1, h2 rfl⟩

/-- Claim C7 (amended): every successfully ingested point is persisted with
`processed = false` and with quality score `quality_score or 1.0`: the
supplied score is kept whenever it is nonzero, while an absent score — and,
by Python falsiness, also a supplied score of exactly 0.0 — falls back to
the default 1.0. -/
theorem c7_persisted_quality_processed (now : Int) (uid : Nat)
    (store : List PassiveDataPoint) (dp : PassiveDataCreate)
    (st : List PassiveDataPoint) (p : PassiveDataPoint)
    (h : ingest_data_point now uid store dp = .ok (st, p)) :
    p.processed = false ∧
    p.quality_score = pyOrQ dp.quality_score 1 ∧
    (∀ q, dp.quality_score = some q → ¬q = 0 → p.quality_score = q) ∧
    (dp.quality_score = none → p.quality_score = 1) ∧
    (dp.quality_score = some 0 → p.quality_score = 1) := by
  have hp : p = buildDataPoint now uid dp := by
    by_cases hv : validate_data_point now dp = []
    · by_cases hd : _is_duplicate now uid store dp
      · simp [ingest_data_point, hv, hd] at h
      · simp [ingest_data_point, hv, hd] at h
        exact h.2.symm
    · simp [ingest_data_point, hv] at h
  subst hp
  refine ⟨rfl, rfl, ?_, ?_, ?_⟩
  · intro q hq hne
    simp [buildDataPoint, pyOrQ, hq, hne]
  · intro hq
    simp [buildDataPoint, pyOrQ, hq]
  · intro hq
    simp [buildDataPoint, pyOrQ, hq]

/-- Counterexample to claim C7 as stated: a valid point supplied with the
in-range quality score 0.0 is persisted with quality score 1.0, not with the
supplied 0.0 (Python `or` treats 0.0 as falsy). -/
theorem c7_counterexample :
    (mkCreatePoint "heart_rate" 62 "wearable" (some 1001) (some 0)).quality_score =
      some 0 ∧
    validate_data_point 1002
      (mkCreatePoint "heart_rate" 62 "wearable" (some 1001) (some 0)) = [] ∧
    ingest_data_point 1002 1 []
      (mkCreatePoint "heart_rate" 62 "wearable" (some 1001) (some 0)) =
      .ok ([{ user_id := 1, data_type := "heart_rate", value := .num 62
              source := "wearable", timestamp := 1001, quality_score := 1
              processed := false }],
           { user_id := 1, data_type := "heart_rate", value := .num 62
             source := "wearable", timestamp := 1001, quality_score := 1
             processed := false }) ∧
    ¬(1 : ℚ) = 0 := by
  refine ⟨rfl, ?_, ?_, by norm_num⟩
  · norm_num [validate_data_point, mkCreatePoint, supportedDataTypes,
      supportedSources, minutesPerDay]
  · norm_num [ingest_data_point, validate_data_point, _is_duplicate,
      buildDataPoint, mkCreatePoint, pyOrQ, supportedDataTypes,
      supportedSources, minutesPerDay]

/-- Witness for the amended claim C7: a supplied nonzero quality score (1/2)
is persisted unchanged, with `processed = false`. -/
theorem c7_witness :
    ∃ st p, ingest_data_point 1002 1 []
        (mkCreatePoint "heart_rate" 62 "wearable" (some 1001) (some (1 / 2))) =
        .ok (st, p) ∧
      p.processed = false ∧ p.quality_score = 1 / 2 := by
  have h : ingest_data_point 1002 1 []
      (mkCreatePoint "heart_rate" 62 "wearable" (some 1001) (some (1 / 2))) =
      .ok ([{ user_id := 1, data_type := "heart_rate", value := .num 62
              source := "wearable", timestamp := 1001, quality_score := 1 / 2
              processed := false }],
           { user_id := 1, data_type := "heart_rate", value := .num 62
             source := "wearable", timestamp := 1001, quality_score := 1 / 2
             processed := false }) := by
    norm_num [ingest_data_point, validate_data_point, _is_duplicate,
      buildDataPoint, mkCreatePoint, pyOrQ, supportedDataTypes,
      supportedSources, minutesPerDay]
  have hc := c7_persisted_quality_processed 1002 1 []
    (mkCreatePoint "heart_rate" 62 "wearable" (some 1001) (some (1 / 2))) _ _ h
  exact ⟨_, _, h, hc.1, hc.2.2.1 (1 / 2) rfl (by norm_num)⟩

/-- Claim C10: within one bulk_ingest call, duplicate detection compares
each item only against the rows persisted before the call: two valid batch
items that are not duplicates of the pre-call store but carry identical
(data_type, value, source) and timestamps within 5 minutes of each other are
BOTH created and persisted, with no per-item error — even though the second
one WOULD be flagged as a duplicate of the first one's persisted row if the
check ran against the updated store. -/
theorem c10_bulk_no_intra_batch_dedup (now : Int) (uid : Nat)
    (store : List PassiveDataPoint) (p1 p2 : PassiveDataCreate) (t1 t2 : Int)
    (hv1 : validate_data_point now p1 = [])
    (hv2 : validate_data_point now p2 = [])
    (hd1 : _is_duplicate now uid store p1 = false)
    (hfind2 : store.find? (windowMatch uid p2 t2) = none)
    (ht1 : p1.timestamp = some t1) (ht2 : p2.timestamp = some t2)
    (hdt : p1.data_type = p2.data_type) (hsrc : p1.source = p2.source)
    (hval : p1.value = p2.value)
    (hwin : (t1 - t2).natAbs ≤ 5) :
    bulk_ingest now uid store [p1, p2] =
      ([buildDataPoint now uid p1, buildDataPoint now uid p2], [],
       store ++ [buildDataPoint now uid p1, buildDataPoint now uid p2]) ∧
    _is_duplicate now uid (store ++ [buildDataPoint now uid p1]) p2 = true := by
  have hd2 : _is_duplicate now uid store p2 = false := by
    simp only [_is_duplicate, ht2, Option.getD_some, hfind2]
  constructor
  · simp [bulk_ingest, bulk_process, hv1, hv2, hd1, hd2]
  · have hpred : windowMatch uid p2 t2 (buildDataPoint now uid p1) = true := by
      simp only [windowMatch, buildDataPoint, ht1, Option.getD_some, decide_eq_true_eq]
      exact ⟨trivial, hdt, hsrc, by omega, by omega⟩
    have hfind : (store ++ [buildDataPoint now uid p1]).find?
        (windowMatch uid p2 t2) = some (buildDataPoint now uid p1) := by
      rw [List.find?_append, hfind2]
      simp [List.find?, hpred]
    simp only [_is_duplicate, ht2, Option.getD_some, hfind, decide_eq_true_eq]
    simp [_create_data_hash, _create_data_hash_from_db, buildDataPoint, hdt, hsrc, hval]

/-- Witness for claim C10: a batch of two identical value-62 points one
minute apart, against an empty store, creates and persists both points with
no errors; the second would have been a duplicate of the first's row. -/
theorem c10_witness :
    bulk_ingest 1002 1 []
      [mkCreatePoint "heart_rate" 62 "wearable" (some 1001) none,
       mkCreatePoint "heart_rate" 62 "wearable" (some 1002) none] =
      ([mkStoredPoint 1 1001 "heart_rate" 62 "wearable",
        mkStoredPoint 1 1002 "heart_rate" 62 "wearable"], [],
       [mkStoredPoint 1 1001 "heart_rate" 62 "wearable",
        mkStoredPoint 1 1002 "heart_rate" 62 "wearable"]) ∧
    _is_duplicate 1002 1 [mkStoredPoint 1 1001 "heart_rate" 62 "wearable"]
      (mkCreatePoint "heart_rate" 62 "wearable" (some 1002) none) = true := by
  have h := c10_bulk_no_intra_batch_dedup 1002 1 []
    (mkCreatePoint "heart_rate" 62 "wearable" (some 1001) none)
    (mkCreatePoint "heart_rate" 62 "wearable" (some 1002) none)
    1001 1002 rfl rfl rfl rfl rfl rfl rfl rfl rfl (by decide)
  exact ⟨h.1, h.2⟩

theorem lookupGroup_addToGroup (g : List (Int × List ℚ)) (k' : Int) (v : ℚ)
    (k : Int) :
    lookupGroup (addToGroup g k' v) k =
      if k' = k then lookupGroup g k ++ [v] else lookupGroup g k := by
  induction g with
  | nil =>
    by_cases h : k' = k <;> simp [addToGroup, lookupGroup, h]
  | cons e rest ih =>
    obtain ⟨k0, vs0⟩ := e
    by_cases h0 : k0 = k'
    · subst h0
      by_cases hk : k0 = k <;> simp [addToGroup, lookupGroup, hk]
    · by_cases hk : k0 = k
      · subst hk
        have : ¬k' = k0 := fun h => h0 h.symm
        simp [addToGroup, lookupGroup, h0, this]
      · simp [addToGroup, lookupGroup, h0, hk, ih]

theorem lookupGroup_foldl (period : String) (pts : List PassiveDataPoint) :
    ∀ (g : List (Int × List ℚ)) (k : Int),
      lookupGroup (pts.foldl
        (fun g p => addToGroup g (aggKey period p.timestamp) p.get_numeric_value) g) k =
      lookupGroup g k ++
        ((pts.filter (fun p => decide (aggKey period p.timestamp = k))).map
          PassiveDataPoint.get_numeric_value) := by
  induction pts with
  | nil => intro g k; simp
  | cons p rest ih =>
    intro g k
    by_cases hp : aggKey period p.timestamp = k
    · simp [List.foldl_cons, ih, lookupGroup_addToGroup, hp]
    · simp [List.foldl_cons, ih, lookupGroup_addToGroup, hp]

theorem mem_keys_addToGroup (g : List (Int × List ℚ)) (k' : Int) (v : ℚ)
    (x : Int) :
    x ∈ (addToGroup g k' v).map Prod.fst ↔ x ∈ g.map Prod.fst ∨ x = k' := by
  induction g with
  | nil => simp [addToGroup]
  | cons e rest ih =>
    obtain ⟨k0, vs0⟩ := e
    by_cases h0 : k0 = k'
    · subst h0
      simp [addToGroup]
      tauto
    · simp [addToGroup, h0, ih]
      tauto

theorem nodup_keys_addToGroup (g : List (Int × List ℚ)) (k' : Int) (v : ℚ)
    (h : (g.map Prod.fst).Nodup) : ((addToGroup g k' v).map Prod.fst).Nodup := by
  induction g with
  | nil => simp [addToGroup]
  | cons e rest ih =>
    obtain ⟨k0, vs0⟩ := e
    simp only [List.map_cons, List.nodup_cons] at h
    by_cases h0 : k0 = k'
    · subst h0
      simp only [addToGroup, eq_self_iff_true, if_true, List.map_cons, List.nodup_cons]
      exact h
    · simp only [addToGroup, if_neg h0, List.map_cons, List.nodup_cons]
      refine ⟨fun hmem => ?_, ih h.2⟩
      rcases (mem_keys_addToGroup rest k' v k0).mp hmem with hin | heq
      · exact h.1 hin
      · exact h0 heq

theorem nodup_keys_groupValues (period : String) (pts : List PassiveDataPoint) :
    ((groupValues period pts).map Prod.fst).Nodup := by
  have hgen : ∀ (l : List PassiveDataPoint) (g : List (Int × List ℚ)),
      (g.map Prod.fst).Nodup →
      ((l.foldl (fun g p =>
        addToGroup g (aggKey period p.timestamp) p.get_numeric_value) g).map
          Prod.fst).Nodup := by
    intro l
    induction l with
    | nil => intro g hg; exact hg
    | cons p rest ih =>
      intro g hg
      exact ih _ (nodup_keys_addToGroup g _ _ hg)
  exact hgen pts [] (by simp)

theorem entry_eq_lookupGroup (g : List (Int × List ℚ))
    (h : (g.map Prod.fst).Nodup) :
    ∀ e ∈ g, e.2 = lookupGroup g e.1 := by
  induction g with
  | nil => intro e he; simp at he
  | cons e0 rest ih =>
    obtain ⟨k0, vs0⟩ := e0
    simp only [List.map_cons, List.nodup_cons] at h
    intro e he
    rcases List.mem_cons.mp he with rfl | hin
    · simp [lookupGroup]
    · have hne : ¬k0 = e.1 := by
        intro hk
        exact h.1 (hk ▸ List.mem_map.mpr ⟨e, hin, rfl⟩)
      simp only [lookupGroup, if_neg hne]
      exact ih h.2 e hin

/-- Claim C3: every bucket emitted by the aggregation engine reduces the
numeric values of exactly the points falling in its period bucket — by SUM
when the data type is one of step_count, notification_count, message_count,
and by arithmetic MEAN for every other data type — and its count is the
number of contributing points. -/
theorem c3_bucket_reduction (data_type period : String)
    (pts : List PassiveDataPoint) (b : DataAggregation)
    (hb : b ∈ aggregate_data data_type period pts) :
    b.count = ((pts.filter (fun p => decide (aggKey period p.timestamp = b.key))).map
        PassiveDataPoint.get_numeric_value).length ∧
    b.aggregated_value =
      (if data_type ∈ countingDataTypes then
        ((pts.filter (fun p => decide (aggKey period p.timestamp = b.key))).map
          PassiveDataPoint.get_numeric_value).sum
       else
        ((pts.filter (fun p => decide (aggKey period p.timestamp = b.key))).map
          PassiveDataPoint.get_numeric_value).sum /
        ((pts.filter (fun p => decide (aggKey period p.timestamp = b.key))).map
          PassiveDataPoint.get_numeric_value).length) := by
  obtain ⟨g, hg, rfl⟩ := List.mem_map.mp hb
  have hvs : g.2 = lookupGroup (groupValues period pts) g.1 :=
    entry_eq_lookupGroup _ (nodup_keys_groupValues period pts) g hg
  have hlk : lookupGroup (groupValues period pts) g.1 =
      ((pts.filter (fun p => decide (aggKey period p.timestamp = g.1))).map
        PassiveDataPoint.get_numeric_value) := by
    have := lookupGroup_foldl period pts [] g.1
    simpa [groupValues, lookupGroup] using this
  constructor
  · simp [hvs, hlk]
  · simp only [hvs, hlk]

/-- Witness for claim C3: step-count values 1000, 1500, 2000 in one calendar
day form a single daily bucket whose reduced value is their sum, and the
theorem identifies it with the sum over the contributing points; heart-rate
values 60, 70, 80 in one day average to 70. -/
theorem c3_bucket_reduction_witness :
    ({ key := 0, aggregated_value := 4500, count := 3 } : DataAggregation) ∈
      aggregate_data "step_count" "daily"
        [mkStoredPoint 1 100 "step_count" 1000 "Fitbit",
         mkStoredPoint 1 200 "step_count" 1500 "Fitbit",
         mkStoredPoint 1 300 "step_count" 2000 "Fitbit"] ∧
    ({ key := 0, aggregated_value := 4500, count := 3 } : DataAggregation).aggregated_value =
      (([mkStoredPoint 1 100 "step_count" 1000 "Fitbit",
         mkStoredPoint 1 200 "step_count" 1500 "Fitbit",
         mkStoredPoint 1 300 "step_count" 2000 "Fitbit"].filter
          (fun p => decide (aggKey "daily" p.timestamp = 0))).map
        PassiveDataPoint.get_numeric_value).sum ∧
    aggregate_data "heart_rate" "daily"
      [mkStoredPoint 1 100 "heart_rate" 60 "Fitbit",
       mkStoredPoint 1 200 "heart_rate" 70 "Fitbit",
       mkStoredPoint 1 300 "heart_rate" 80 "Fitbit"] =
      [{ key := 0, aggregated_value := 70, count := 3 }] := by
  have hagg : aggregate_data "step_count" "daily"
      [mkStoredPoint 1 100 "step_count" 1000 "Fitbit",
       mkStoredPoint 1 200 "step_count" 1500 "Fitbit",
       mkStoredPoint 1 300 "step_count" 2000 "Fitbit"] =
      [{ key := 0, aggregated_value := 4500, count := 3 }] := by
    simp [aggregate_data, groupValues, addToGroup, aggKey, dateOf, minutesPerDay,
      mkStoredPoint, PassiveDataPoint.get_numeric_value, countingDataTypes]
    norm_num
  have hmem : ({ key := 0, aggregated_value := 4500, count := 3 } : DataAggregation) ∈
      aggregate_data "step_count" "daily"
        [mkStoredPoint 1 100 "step_count" 1000 "Fitbit",
         mkStoredPoint 1 200 "step_count" 1500 "Fitbit",
         mkStoredPoint 1 300 "step_count" 2000 "Fitbit"] := by
    rw [hagg]
    exact List.mem_singleton.mpr rfl
  have h := c3_bucket_reduction "step_count" "daily"
    [mkStoredPoint 1 100 "step_count" 1000 "Fitbit",
     mkStoredPoint 1 200 "step_count" 1500 "Fitbit",
     mkStoredPoint 1 300 "step_count" 2000 "Fitbit"]
    { key := 0, aggregated_value := 4500, count := 3 } hmem
  refine ⟨hmem, ?_, ?_⟩
  · rw [h.2]
    simp [countingDataTypes]
  · simp [aggregate_data, groupValues, addToGroup, aggKey, dateOf, minutesPerDay,
      mkStoredPoint, PassiveDataPoint.get_numeric_value, countingDataTypes]
    norm_num

theorem devSq_nonneg (x : List ℚ) : 0 ≤ devSq x := by
  apply List.sum_nonneg
  intro a ha
  obtain ⟨b, -, rfl⟩ := List.mem_map.mp ha
  exact sq_nonneg _

theorem corrDenSq_nonneg (x y : List ℚ) : 0 ≤ corrDenSq x y :=
  mul_nonneg (devSq_nonneg x) (devSq_nonneg y)

theorem mul_sqrt_lt_iff (n d c : ℚ) (hd : 0 < d) (hc : 0 < c) :
    ((c : ℝ) * Real.sqrt (d : ℝ) < (n : ℝ)) ↔ (0 < n ∧ c ^ 2 * d < n ^ 2) := by
  have hdR : (0 : ℝ) < (d : ℝ) := by exact_mod_cast hd
  have hcR : (0 : ℝ) < (c : ℝ) := by exact_mod_cast hc
  have hs : 0 < Real.sqrt (d : ℝ) := Real.sqrt_pos.mpr hdR
  have hcs : 0 < (c : ℝ) * Real.sqrt (d : ℝ) := mul_pos hcR hs
  constructor
  · intro h
    have hnR : (0 : ℝ) < (n : ℝ) := hcs.trans h
    have h2 : ((c : ℝ) * Real.sqrt (d : ℝ)) ^ 2 < (n : ℝ) ^ 2 := by
      have := mul_self_lt_mul_self hcs.le h
      simpa [sq] using this
    rw [mul_pow, Real.sq_sqrt hdR.le] at h2
    exact ⟨by exact_mod_cast hnR, by exact_mod_cast h2⟩
  · rintro ⟨hn, hlt⟩
    have hnR : (0 : ℝ) < (n : ℝ) := by exact_mod_cast hn
    have hltR : (c : ℝ) ^ 2 * (d : ℝ) < (n : ℝ) ^ 2 := by exact_mod_cast hlt
    have h2 : ((c : ℝ) * Real.sqrt (d : ℝ)) ^ 2 < (n : ℝ) ^ 2 := by
      rw [mul_pow, Real.sq_sqrt hdR.le]
      exact hltR
    exact lt_of_pow_lt_pow_left₀ 2 hnR.le h2

/-- Justification of the square-root-free encoding in `corrGtB`: for a
positive threshold, the real-valued correlation of the source (numerator
over the square root of `corrDenSq`, 0.0 on a zero denominator) exceeds the
threshold exactly when the boolean decides true. -/
theorem corrGtB_eq_true_iff (x y : List ℚ) (c : ℚ) (hc : 0 < c) :
    corrGtB x y c = true ↔
      (c : ℝ) < (if corrDenSq x y = 0 then (0 : ℝ)
        else (corrNum x y : ℝ) / Real.sqrt ((corrDenSq x y : ℚ) : ℝ)) := by
  rw [corrGtB, decide_eq_true_eq]
  by_cases h0 : corrDenSq x y = 0
  · have hcR : (0 : ℝ) < (c : ℝ) := by exact_mod_cast hc
    simp [h0, hcR.not_lt]
  · have hdpos : 0 < corrDenSq x y :=
      lt_of_le_of_ne (corrDenSq_nonneg x y) (Ne.symm h0)
    have hs : 0 < Real.sqrt ((corrDenSq x y : ℚ) : ℝ) :=
      Real.sqrt_pos.mpr (by exact_mod_cast hdpos)
    rw [if_neg h0, lt_div_iff₀ hs, mul_sqrt_lt_iff _ _ _ hdpos hc]
    simp [h0]

/-- Justification of the square-root-free encoding in `corrLtB`: for a
negative threshold, the real-valued correlation of the source is below the
threshold exactly when the boolean decides true. -/
theorem corrLtB_eq_true_iff (x y : List ℚ) (c : ℚ) (hc : c < 0) :
    corrLtB x y c = true ↔
      (if corrDenSq x y = 0 then (0 : ℝ)
        else (corrNum x y : ℝ) / Real.sqrt ((corrDenSq x y : ℚ) : ℝ)) < (c : ℝ) := by
  rw [corrLtB, decide_eq_true_eq]
  by_cases h0 : corrDenSq x y = 0
  · have hcR : (c : ℝ) < 0 := by exact_mod_cast hc
    simp [h0, hcR.not_lt, not_lt.mpr hcR.le]
  · have hdpos : 0 < corrDenSq x y :=
      lt_of_le_of_ne (corrDenSq_nonneg x y) (Ne.symm h0)
    have hs : 0 < Real.sqrt ((corrDenSq x y : ℚ) : ℝ) :=
      Real.sqrt_pos.mpr (by exact_mod_cast hdpos)
    rw [if_neg h0, div_lt_iff₀ hs]
    have hneg : ((corrNum x y : ℝ) < (c : ℝ) * Real.sqrt ((corrDenSq x y : ℚ) : ℝ)) ↔
        ((-c : ℚ) : ℝ) * Real.sqrt ((corrDenSq x y : ℚ) : ℝ) < ((-(corrNum x y) : ℚ) : ℝ) := by
      push_cast
      constructor <;> intro h <;> nlinarith [h]
    rw [hneg, mul_sqrt_lt_iff _ _ _ hdpos (by linarith)]
    have h1 : (-c) ^ 2 * corrDenSq x y = c ^ 2 * corrDenSq x y := by ring
    have h2 : (-corrNum x y) ^ 2 = corrNum x y ^ 2 := by ring
    rw [h1, h2]
    constructor
    · rintro ⟨-, hn, hlt⟩
      exact ⟨by linarith, hlt⟩
    · rintro ⟨hn, hlt⟩
      exact ⟨h0, by linarith, hlt⟩

/-- Claim C6 (amended): for windows of at least 5 check-ins, the mood-sleep
pair produces an insight ONLY when its correlation exceeds +0.3 (positive
phrasing); no sleep insight at all is emitted when the correlation is below
-0.3 — the sleep branch is NOT symmetric to the mood-energy pair, which
produces a positive-phrased insight above +0.3 and a negative-phrased one
below -0.3; the mood-stress pair produces an insight only below -0.3. -/
theorem c6_insight_branches (setEnum : List String → List String)
    (cs : List DailyCheckin) (h5 : 5 ≤ cs.length) :
    ((∃ m, ("sleep", m) ∈ (get_mood_analytics setEnum cs).correlation_insights) ↔
      corrGtB (cs.map (fun c => c.mood_rating))
        (cs.map (fun c => pyOrQ c.sleep_quality 5)) (3 / 10) = true) ∧
    ((∃ m, ("energy", m) ∈ (get_mood_analytics setEnum cs).correlation_insights) ↔
      (corrGtB (cs.map (fun c => c.mood_rating))
        (cs.map (fun c => pyOrQ c.energy_level 5)) (3 / 10) = true ∨
       corrLtB (cs.map (fun c => c.mood_rating))
        (cs.map (fun c => pyOrQ c.energy_level 5)) (-(3 / 10)) = true)) ∧
    ((∃ m, ("stress", m) ∈ (get_mood_analytics setEnum cs).correlation_insights) ↔
      corrLtB (cs.map (fun c => c.mood_rating))
        (cs.map (fun c => pyOrQ c.stress_level 5)) (-(3 / 10)) = true) := by
  cases cs with
  | nil => simp at h5
  | cons c rest =>
    have hci : (get_mood_analytics setEnum (c :: rest)).correlation_insights =
        _calculate_correlations (c :: rest) := rfl
    rw [hci]
    rw [_calculate_correlations, if_neg (by omega)]
    cases hgE : corrGtB ((c :: rest).map (fun c => c.mood_rating))
        ((c :: rest).map (fun c => pyOrQ c.energy_level 5)) (3 / 10) <;>
      cases hlE : corrLtB ((c :: rest).map (fun c => c.mood_rating))
        ((c :: rest).map (fun c => pyOrQ c.energy_level 5)) (-(3 / 10)) <;>
      cases hlS : corrLtB ((c :: rest).map (fun c => c.mood_rating))
        ((c :: rest).map (fun c => pyOrQ c.stress_level 5)) (-(3 / 10)) <;>
      cases hgSl : corrGtB ((c :: rest).map (fun c => c.mood_rating))
        ((c :: rest).map (fun c => pyOrQ c.sleep_quality 5)) (3 / 10) <;>
      simp only [List.map_cons] at hgE hlE hlS hgSl <;>
      simp [hgE, hlE, hlS, hgSl]

/-- Counterexample to claim C6 as stated: five check-ins whose mood ratings
1..5 and sleep qualities 5..1 are perfectly anti-correlated (mood-sleep
correlation -1 < -0.3), yet the correlation-insights map is EMPTY — in
particular it contains no negative-phrased sleep insight. -/
theorem c6_counterexample :
    corrLtB
      ([mkCheckin 1 0 1 none none none (some 5),
        mkCheckin 1 1440 2 none none none (some 4),
        mkCheckin 1 2880 3 none none none (some 3),
        mkCheckin 1 4320 4 none none none (some 2),
        mkCheckin 1 5760 5 none none none (some 1)].map (fun c => c.mood_rating))
      ([mkCheckin 1 0 1 none none none (some 5),
        mkCheckin 1 1440 2 none none none (some 4),
        mkCheckin 1 2880 3 none none none (some 3),
        mkCheckin 1 4320 4 none none none (some 2),
        mkCheckin 1 5760 5 none none none (some 1)].map
          (fun c => pyOrQ c.sleep_quality 5)) (-(3 / 10)) = true ∧
    (get_mood_analytics pyDedup
      [mkCheckin 1 0 1 none none none (some 5),
       mkCheckin 1 1440 2 none none none (some 4),
       mkCheckin 1 2880 3 none none none (some 3),
       mkCheckin 1 4320 4 none none none (some 2),
       mkCheckin 1 5760 5 none none none (some 1)]).correlation_insights = [] := by
  constructor
  · norm_num [corrLtB, corrNum, corrDenSq, devSq, listMean, mkCheckin, pyOrQ]
  · norm_num [get_mood_analytics, mkCheckin, _calculate_correlations, corrGtB,
      corrLtB, corrNum, corrDenSq, devSq, listMean, pyOrQ]

/-- Witness for the amended claim C6: five check-ins with mood and sleep
quality both increasing 1..5 (correlation +1 > 0.3) do produce a sleep
insight through the positive branch. -/
theorem c6_witness :
    ∃ m, ("sleep", m) ∈ (get_mood_analytics pyDedup
      [mkCheckin 1 0 1 none none none (some 1),
       mkCheckin 1 1440 2 none none none (some 2),
       mkCheckin 1 2880 3 none none none (some 3),
       mkCheckin 1 4320 4 none none none (some 4),
       mkCheckin 1 5760 5 none none none (some 5)]).correlation_insights := by
  refine ((c6_insight_branches pyDedup
    [mkCheckin 1 0 1 none none none (some 1),
     mkCheckin 1 1440 2 none none none (some 2),
     mkCheckin 1 2880 3 none none none (some 3),
     mkCheckin 1 4320 4 none none none (some 4),
     mkCheckin 1 5760 5 none none none (some 5)] (by simp)).1).mpr ?_
  norm_num [corrGtB, corrNum, corrDenSq, devSq, listMean, mkCheckin, pyOrQ]

theorem mem_pyDedup {α : Type} [DecidableEq α] (l : List α) (x : α) :
    x ∈ pyDedup l ↔ x ∈ l := by
  induction l using pyDedup.induct with
  | case1 => simp [pyDedup]
  | case2 a rest ih =>
    rw [pyDedup]
    simp only [List.mem_cons, ih, List.mem_filter, decide_eq_true_eq]
    by_cases hx : x = a
    · simp [hx]
    · simp [hx]

theorem nodup_pyDedup {α : Type} [DecidableEq α] (l : List α) :
    (pyDedup l).Nodup := by
  induction l using pyDedup.induct with
  | case1 => simp [pyDedup]
  | case2 a rest ih =>
    rw [pyDedup]
    refine List.nodup_cons.mpr ⟨fun hmem => ?_, ih⟩
    have := (mem_pyDedup _ a).mp hmem
    simp at this

theorem validSetEnum_pyDedup : ValidSetEnum (fun l => pyDedup l) :=
  fun l => ⟨nodup_pyDedup l, fun x => mem_pyDedup l x⟩

theorem validSetEnum_pyDedupRev : ValidSetEnum (fun l => (pyDedup l).reverse) :=
  fun l => ⟨List.nodup_reverse.mpr (nodup_pyDedup l),
    fun x => (List.mem_reverse).trans (mem_pyDedup l x)⟩

theorem foldl_pickMoreCommon_mem (cats : List String) :
    ∀ (l : List String) (c : String), l.foldl (pickMoreCommon cats) c ∈ c :: l := by
  intro l
  induction l with
  | nil => intro c; simp
  | cons y ys ih =>
    intro c
    rw [List.foldl_cons]
    rcases List.mem_cons.mp (ih (pickMoreCommon cats c y)) with he | hin
    · rw [he]
      by_cases hp : countOf cats c < countOf cats y
      · simp [pickMoreCommon, hp]
      · simp [pickMoreCommon, hp]
    · exact List.mem_cons_of_mem _ (List.mem_cons_of_mem _ hin)

theorem foldl_pickMoreCommon_ge (cats : List String) :
    ∀ (l : List String) (c x : String), x ∈ c :: l →
      countOf cats x ≤ countOf cats (l.foldl (pickMoreCommon cats) c) := by
  intro l
  induction l with
  | nil =>
    intro c x hx
    rcases List.mem_cons.mp hx with rfl | h
    · exact Nat.le_refl _
    · simp at h
  | cons y ys ih =>
    intro c x hx
    rw [List.foldl_cons]
    have hcle : countOf cats c ≤ countOf cats (pickMoreCommon cats c y) := by
      by_cases hp : countOf cats c < countOf cats y
      · simp only [pickMoreCommon, if_pos hp]
        exact Nat.le_of_lt hp
      · simp only [pickMoreCommon, if_neg hp]
        exact Nat.le_refl _
    have hyle : countOf cats y ≤ countOf cats (pickMoreCommon cats c y) := by
      by_cases hp : countOf cats c < countOf cats y
      · simp only [pickMoreCommon, if_pos hp]
        exact Nat.le_refl _
      · simp only [pickMoreCommon, if_neg hp]
        exact Nat.le_of_not_lt hp
    rcases List.mem_cons.mp hx with rfl | hx1
    · exact Nat.le_trans hcle (ih _ _ (List.mem_cons_self _ _))
    · rcases List.mem_cons.mp hx1 with rfl | hx2
      · exact Nat.le_trans hyle (ih _ _ (List.mem_cons_self _ _))
      · exact ih _ x (List.mem_cons_of_mem _ hx2)

/-- Claim C9 (amended): for every valid set-enumeration order, the most
common category of a window with at least one non-null category is some
category of maximal count among the non-null category values; on ties,
however, the choice follows the Python set iteration order, which is
unspecified — it is NOT guaranteed to be the first-encountered category in
insertion order. -/
theorem c9_most_common_is_mode (setEnum : List String → List String)
    (hv : ValidSetEnum setEnum) (cs : List DailyCheckin)
    (hne : ¬pyCategories cs = []) :
    ∃ m, (get_mood_analytics setEnum cs).most_common_category = some m ∧
      m ∈ pyCategories cs ∧
      ∀ x ∈ pyCategories cs,
        countOf (pyCategories cs) x ≤ countOf (pyCategories cs) m := by
  cases cs with
  | nil => simp [pyCategories] at hne
  | cons c rest =>
    have hfield : (get_mood_analytics setEnum (c :: rest)).most_common_category =
        if (pyCategories (c :: rest)).isEmpty then none
        else pyMaxByCount (setEnum (pyCategories (c :: rest)))
          (pyCategories (c :: rest)) := rfl
    have hiso : ¬(pyCategories (c :: rest)).isEmpty := by
      simpa [List.isEmpty_iff] using hne
    rw [hfield, if_neg hiso]
    obtain ⟨a, ha⟩ : ∃ a, a ∈ pyCategories (c :: rest) := by
      cases hc : pyCategories (c :: rest) with
      | nil => exact absurd hc hne
      | cons a l => exact ⟨a, hc ▸ List.mem_cons_self a l⟩
    have haenum : a ∈ setEnum (pyCategories (c :: rest)) :=
      ((hv (pyCategories (c :: rest))).2 a).mpr ha
    cases henum : setEnum (pyCategories (c :: rest)) with
    | nil => rw [henum] at haenum; simp at haenum
    | cons e0 es =>
      simp only [pyMaxByCount]
      refine ⟨es.foldl (pickMoreCommon (pyCategories (c :: rest))) e0, rfl, ?_, ?_⟩
      · have hmem := foldl_pickMoreCommon_mem (pyCategories (c :: rest)) es e0
        have hin : es.foldl (pickMoreCommon (pyCategories (c :: rest))) e0 ∈
            setEnum (pyCategories (c :: rest)) := by
          rw [henum]; exact hmem
        exact ((hv (pyCategories (c :: rest))).2 _).mp hin
      · intro x hx
        have hxe : x ∈ setEnum (pyCategories (c :: rest)) :=
          ((hv (pyCategories (c :: rest))).2 x).mpr hx
        rw [henum] at hxe
        exact foldl_pickMoreCommon_ge (pyCategories (c :: rest)) es e0 x hxe

/-- Counterexample to claim C9 as stated: with categories a, b, a, b (tied
counts 2:2), the reversed keep-first dedup is a valid set-enumeration order
under which the code selects "b", while the claim's tie-break — the first
category encountered in insertion order among the tied set — is "a". -/
theorem c9_counterexample :
    ValidSetEnum (fun l => (pyDedup l).reverse) ∧
    pyCategories
      [mkCheckin 1 0 5 (some "a") none none none,
       mkCheckin 1 1440 5 (some "b") none none none,
       mkCheckin 1 2880 5 (some "a") none none none,
       mkCheckin 1 4320 5 (some "b") none none none] = ["a", "b", "a", "b"] ∧
    (get_mood_analytics (fun l => (pyDedup l).reverse)
      [mkCheckin 1 0 5 (some "a") none none none,
       mkCheckin 1 1440 5 (some "b") none none none,
       mkCheckin 1 2880 5 (some "a") none none none,
       mkCheckin 1 4320 5 (some "b") none none none]).most_common_category =
      some "b" ∧
    firstModeOfTies ["a", "b", "a", "b"] = some "a" ∧
    ¬("b" : String) = "a" := by
  refine ⟨validSetEnum_pyDedupRev, by decide, ?_, by decide, by decide⟩
  simp [get_mood_analytics, mkCheckin, pyCategories, pyDedup, pyMaxByCount,
    pickMoreCommon, countOf]

/-- Witness for the amended claim C9: with categories a, b, b under the
keep-first dedup enumeration, the selected most common category is a
category of maximal count. -/
theorem c9_witness :
    ∃ m, (get_mood_analytics (fun l => pyDedup l)
        [mkCheckin 1 0 5 (some "a") none none none,
         mkCheckin 1 1440 5 (some "b") none none none,
         mkCheckin 1 2880 5 (some "b") none none none]).most_common_category =
        some m ∧
      m ∈ pyCategories
        [mkCheckin 1 0 5 (some "a") none none none,
         mkCheckin 1 1440 5 (some "b") none none none,
         mkCheckin 1 2880 5 (some "b") none none none] ∧
      ∀ x ∈ pyCategories
        [mkCheckin 1 0 5 (some "a") none none none,
         mkCheckin 1 1440 5 (some "b") none none none,
         mkCheckin 1 2880 5 (some "b") none none none],
        countOf (pyCategories
          [mkCheckin 1 0 5 (some "a") none none none,
           mkCheckin 1 1440 5 (some "b") none none none,
           mkCheckin 1 2880 5 (some "b") none none none]) x ≤
        countOf (pyCategories
          [mkCheckin 1 0 5 (some "a") none none none,
           mkCheckin 1 1440 5 (some "b") none none none,
           mkCheckin 1 2880 5 (some "b") none none none]) m :=
  c9_most_common_is_mode (fun l => pyDedup l) validSetEnum_pyDedup
    [mkCheckin 1 0 5 (some "a") none none none,
     mkCheckin 1 1440 5 (some "b") none none none,
     mkCheckin 1 2880 5 (some "b") none none none] (by decide)

end MindBridge
